import Mathlib

/-!
# Verification of `browser_use/browser/views.py`

A shallow embedding of the browser state-snapshot data model:
`TabInfo`, `PageInfo`, `BrowserStateSummary` (the live snapshot) and
`BrowserStateHistory` (the persisted history entry) together with its
two operations `get_screenshot` and `to_dict`, plus the module-level
placeholder screenshot constant `PLACEHOLDER_4PX_SCREENSHOT`.

Python values appearing in serialized mappings are embedded as `PyVal`;
Python `dict`s produced by the serializers are association lists (the
serializers emit keys in a fixed insertion order). Python `int` is
unbounded, so integer fields are `Int`. File-system interaction in
`get_screenshot` is made explicit via a `FileSystem` record; a failing
read (an exception inside the `try` block) is modelled as `none`.
-/

namespace BrowserViews

/-- A Python value as it appears in the serialized mappings of this module:
`None`, `int`, `str`, `bool`, lists, and ordered dicts. -/
inductive PyVal where
  | none : PyVal
  | int : Int → PyVal
  | str : String → PyVal
  | bool : Bool → PyVal
  | list : List PyVal → PyVal
  | dict : List (String × PyVal) → PyVal

/-- Embed a Python `int | None` value. -/
def pyOfOptInt : Option Int → PyVal
  | Option.none => PyVal.none
  | Option.some n => PyVal.int n

/-- Embed a Python `str | None` value. -/
def pyOfOptStr : Option String → PyVal
  | Option.none => PyVal.none
  | Option.some s => PyVal.str s

/-- `TabInfo`: information about one browser tab
(pydantic model: `page_id`, `url`, `title`, `parent_page_id = None`). -/
structure TabInfo where
  page_id : Int
  url : String
  title : String
  parent_page_id : Option Int := Option.none
deriving DecidableEq, Repr

/-- Pydantic `model_dump()` for `TabInfo`: a mapping of all four fields,
in field-declaration order. -/
def TabInfo.model_dump (t : TabInfo) : PyVal :=
  PyVal.dict
    [("page_id", PyVal.int t.page_id),
     ("url", PyVal.str t.url),
     ("title", PyVal.str t.title),
     ("parent_page_id", pyOfOptInt t.parent_page_id)]

/-- `PageInfo`: comprehensive page size and scroll information. All ten
fields are plain (unbounded, unconstrained) Python ints. -/
structure PageInfo where
  viewport_width : Int
  viewport_height : Int
  page_width : Int
  page_height : Int
  scroll_x : Int
  scroll_y : Int
  pixels_above : Int
  pixels_below : Int
  pixels_left : Int
  pixels_right : Int
deriving DecidableEq, Repr

/-- The spec's "all fields ≥ 0" relationship for `PageInfo`, as a predicate
(the code itself never enforces it). -/
def PageInfo.allNonneg (p : PageInfo) : Prop :=
  0 ≤ p.viewport_width ∧ 0 ≤ p.viewport_height ∧
  0 ≤ p.page_width ∧ 0 ≤ p.page_height ∧
  0 ≤ p.scroll_x ∧ 0 ≤ p.scroll_y ∧
  0 ≤ p.pixels_above ∧ 0 ≤ p.pixels_below ∧
  0 ≤ p.pixels_left ∧ 0 ≤ p.pixels_right

instance (p : PageInfo) : Decidable p.allNonneg := by
  unfold PageInfo.allNonneg
  infer_instance

/-- Modelled from the spec: the DOM element tree is produced by the external
DOM layer and is "opaque to this model"; it is embedded as an opaque token. -/
structure DOMElementNode where
  tok : Nat
deriving DecidableEq, Repr

/-- Modelled from the spec: the selector map is "an external index from
identifiers to DOM elements, supplied by the DOM-state producer, opaque to
this model". -/
def SelectorMap : Type := List (Int × DOMElementNode)

/-- Modelled from the spec: `DOMHistoryElement` is external (only imported
here) — "an externally-computed durable descriptor: e.g., XPath/attribute
fingerprint + bounding box" whose `to_dict` is a "plain element mapping". -/
structure DOMHistoryElement where
  xpath : String
  attributes : List (String × String)
deriving DecidableEq, Repr

/-- Modelled from the spec: the external descriptor's serialized form,
a plain mapping of its fingerprint data. -/
def DOMHistoryElement.to_dict (el : DOMHistoryElement) : PyVal :=
  PyVal.dict
    [("xpath", PyVal.str el.xpath),
     ("attributes", PyVal.dict (el.attributes.map (fun a => (a.1, PyVal.str a.2))))]

/-- `BrowserStateSummary`: the live snapshot of the browser's current state.
`element_tree` and `selector_map` are the fields inherited from `DOMState`;
the remaining fields and their defaults follow the dataclass declaration. -/
structure BrowserStateSummary where
  element_tree : DOMElementNode
  selector_map : SelectorMap
  url : String
  title : String
  tabs : List TabInfo
  screenshot : Option String := Option.none
  page_info : Option PageInfo := Option.none
  pixels_above : Int := 0
  pixels_below : Int := 0
  browser_errors : List String := []
  is_pdf_viewer : Bool := false
  loading_status : Option String := Option.none

/-- The spec's referential invariant on a snapshot's tab list: every
`parent_page_id` that is present names the `page_id` of some tab in the
same list (the code itself never enforces it). -/
def parentRefsResolve (s : BrowserStateSummary) : Prop :=
  ∀ t ∈ s.tabs, ∀ pid, t.parent_page_id = Option.some pid →
    ∃ t2 ∈ s.tabs, t2.page_id = pid

/-- `BrowserStateHistory`: the persisted summary of the browser's state at a
past point in time. -/
structure BrowserStateHistory where
  url : String
  title : String
  tabs : List TabInfo
  interacted_element : List (Option DOMHistoryElement)
  screenshot_path : Option String := Option.none

/-! ## base64 (RFC 4648) encoding, as performed by `base64.b64encode`

`get_screenshot` returns `base64.b64encode(bytes).decode('utf-8')`; the
encoder's output alphabet is ASCII, so the UTF-8 decode is the identity and
the result is embedded directly as the encoded string. Bytes are `Nat`s
below 256. -/

/-- The 64-character base64 alphabet. -/
def base64Alphabet : List Char :=
  "ABCDEFGHIJKLMNOPQRSTUVWXYZabcdefghijklmnopqrstuvwxyz0123456789+/".toList

/-- The base64 digit for a 6-bit group. -/
def b64char (n : Nat) : Char := base64Alphabet.getD (n % 64) 'A'

/-- base64-encode a byte list, with `=` padding, exactly as
`base64.b64encode` does (three input bytes per four output characters). -/
def base64Encode : List Nat → String
  | [] => ""
  | [a] =>
      String.mk [b64char (a / 4), b64char (a % 4 * 16), '=', '=']
  | [a, b] =>
      String.mk [b64char (a / 4), b64char (a % 4 * 16 + b / 16),
                 b64char (b % 16 * 4), '=']
  | a :: b :: c :: rest =>
      String.mk [b64char (a / 4), b64char (a % 4 * 16 + b / 16),
                 b64char (b % 16 * 4 + c / 64), b64char (c % 64)]
        ++ base64Encode rest

/-- The file system seen by `get_screenshot`: `exists_at` models
`Path(p).exists()`, and `read` models `open(p, 'rb').read()` — `none` when
the read raises (the exception swallowed by the `try` block), `some bytes`
when it returns the file's bytes. -/
structure FileSystem where
  exists_at : String → Bool
  read : String → Option (List Nat)

/-- Python truthiness of the `screenshot_path` field
(`if not self.screenshot_path`): `None` and the empty string are falsy. -/
def pathTruthy : Option String → Bool
  | Option.none => false
  | Option.some s => s ≠ ""

/-- `BrowserStateHistory.get_screenshot`: load the screenshot from disk and
return it as a base64 string; `none` when the path is falsy, the file does
not exist, or the read fails. -/
def BrowserStateHistory.get_screenshot (fs : FileSystem)
    (h : BrowserStateHistory) : Option String :=
  match h.screenshot_path with
  | Option.none => Option.none
  | Option.some p =>
      if p = "" then Option.none
      else if fs.exists_at p then
        match fs.read p with
        | Option.none => Option.none
        | Option.some bytes => Option.some (base64Encode bytes)
      else Option.none

/-- One slot of the serialized `interacted_element` list:
`el.to_dict() if el else None`. -/
def pyOfElemSlot : Option DOMHistoryElement → PyVal
  | Option.none => PyVal.none
  | Option.some el => el.to_dict

/-- `BrowserStateHistory.to_dict`: the serialization contract, emitting the
five keys in the order the code inserts them. -/
def BrowserStateHistory.to_dict (h : BrowserStateHistory) :
    List (String × PyVal) :=
  [("tabs", PyVal.list (h.tabs.map TabInfo.model_dump)),
   ("screenshot_path", pyOfOptStr h.screenshot_path),
   ("interacted_element", PyVal.list (h.interacted_element.map pyOfElemSlot)),
   ("url", PyVal.str h.url),
   ("title", PyVal.str h.title)]

/-- Module-level constant: the base64 data of the known placeholder image
for `about:blank` pages. -/
def PLACEHOLDER_4PX_SCREENSHOT : String :=
  "iVBORw0KGgoAAAANSUhEUgAAAAQAAAAECAIAAAAmkwkpAAAAFElEQVR4nGP8//8/AwwwMSAB3BwAlm4DBfIlvvkAAAAASUVORK5CYII="

end BrowserViews

namespace BrowserViews

/-! ## Concrete values used in examples and witnesses -/

/-- The spec's example tab: `TabInfo(page_id=1, url="https://a.test", title="A")`. -/
def exampleTab : TabInfo :=
  {page_id := 1, url := "https://a.test", title := "A"}

/-- The spec's example history entry projected from the example snapshot. -/
def exampleHist : BrowserStateHistory :=
  {url := "https://a.test", title := "A", tabs := [exampleTab],
   interacted_element := [Option.none], screenshot_path := Option.none}

/-- A history entry whose two action targets are both unresolved. -/
def allAbsentHist : BrowserStateHistory :=
  {url := "u", title := "t", tabs := [],
   interacted_element := [Option.none, Option.none]}

/-- The spec's example popup tab:
`TabInfo(page_id=2, url="https://b.test", title="B", parent_page_id=1)`. -/
def popupTab : TabInfo :=
  {page_id := 2, url := "https://b.test", title := "B",
   parent_page_id := Option.some 1}

/-- A snapshot whose only tab references a parent page id (1) that no tab in
the list carries — constructible, since nothing validates the reference. -/
def badSnapshot : BrowserStateSummary :=
  {element_tree := ⟨0⟩, selector_map := [], url := "https://b.test",
   title := "B", tabs := [popupTab]}

/-- A snapshot holding both the example tab (page id 1) and the popup tab
whose `parent_page_id` references it. -/
def goodSnapshot : BrowserStateSummary :=
  {element_tree := ⟨0⟩, selector_map := [], url := "https://b.test",
   title := "B", tabs := [exampleTab, popupTab]}

/-- A `PageInfo` all of whose fields are negative — constructible, since the
fields are unconstrained ints. -/
def badPageInfo : PageInfo :=
  ⟨-1, -1, -1, -1, -1, -1, -1, -1, -1, -1⟩

end BrowserViews

namespace BrowserViews

/-! ## Injectivity helpers for the serialization contract -/

theorem pyOfOptInt_inj {a b : Option Int} (h : pyOfOptInt a = pyOfOptInt b) :
    a = b := by
  cases a <;> cases b <;> simp [pyOfOptInt] at h ⊢ <;> exact h

theorem pyOfOptStr_inj {a b : Option String} (h : pyOfOptStr a = pyOfOptStr b) :
    a = b := by
  cases a <;> cases b <;> simp [pyOfOptStr] at h ⊢ <;> exact h

theorem model_dump_inj {a b : TabInfo} (h : a.model_dump = b.model_dump) :
    a = b := by
  cases a; cases b
  simp [TabInfo.model_dump] at h
  obtain ⟨h1, h2, h3, h4⟩ := h
  simp_all [pyOfOptInt_inj h4]

theorem pyOfElemSlot_eq_imp {a b : Option DOMHistoryElement}
    (h : pyOfElemSlot a = pyOfElemSlot b) :
    Option.map DOMHistoryElement.to_dict a = Option.map DOMHistoryElement.to_dict b := by
  cases a <;> cases b <;>
    simp [pyOfElemSlot, DOMHistoryElement.to_dict] at h ⊢ <;> simp_all

theorem map_eq_of_map_eq {α β γ : Type} {f : α → β} {g : α → γ}
    (hfg : ∀ a b : α, f a = f b → g a = g b) :
    ∀ l1 l2 : List α, l1.map f = l2.map f → l1.map g = l2.map g := by
  intro l1
  induction l1 with
  | nil => intro l2 h; cases l2 <;> simp_all
  | cons x xs ih =>
      intro l2 h
      cases l2 with
      | nil => simp at h
      | cons y ys =>
          simp only [List.map_cons, List.cons.injEq] at h ⊢
          exact ⟨hfg _ _ h.1, ih ys h.2⟩

end BrowserViews

namespace BrowserViews

/-! ## Claims -/

/-- C1: `get_screenshot()` never raises (it is a total function into
`Option String`); each of the three failure shapes — no recorded path
(`None` or empty, i.e. falsy), a path that does not exist on disk, and a
file whose read fails inside the `try` block — collapses to absence
(`none`). -/
theorem get_screenshot_lenient (fs : FileSystem) (h : BrowserStateHistory)
    (hfail : h.screenshot_path = Option.none ∨
      ∃ p, h.screenshot_path = Option.some p ∧
        (fs.exists_at p = false ∨ fs.read p = Option.none)) :
    h.get_screenshot fs = Option.none := by
  rcases hfail with hnone | ⟨p, hp, hbad⟩
  · simp [BrowserStateHistory.get_screenshot, hnone]
  · rcases hbad with hex | hrd
    · by_cases hpe : p = "" <;>
        simp [BrowserStateHistory.get_screenshot, hp, hpe, hex]
    · by_cases hpe : p = "" <;>
        cases hex : fs.exists_at p <;>
        simp [BrowserStateHistory.get_screenshot, hp, hpe, hex, hrd]

/-- Witness for C1: a concrete entry with no recorded path, on a file system
with no files, yields absence. -/
theorem get_screenshot_lenient_witness :
    ({url := "u", title := "t", tabs := [], interacted_element := [],
      screenshot_path := Option.none} : BrowserStateHistory).get_screenshot
      ⟨fun _ => false, fun _ => Option.none⟩ = Option.none :=
  get_screenshot_lenient ⟨fun _ => false, fun _ => Option.none⟩ _ (Or.inl rfl)

/-- C2: when the recorded path names an existing file whose read returns
bytes `B`, `get_screenshot()` returns exactly the base64 encoding of `B`
(the UTF-8 decode of the ASCII base64 output is the identity). -/
theorem get_screenshot_reads_base64 (fs : FileSystem) (h : BrowserStateHistory)
    (p : String) (B : List Nat)
    (hp : h.screenshot_path = Option.some p) (hne : p ≠ "")
    (hex : fs.exists_at p = true) (hrd : fs.read p = Option.some B) :
    h.get_screenshot fs = Option.some (base64Encode B) := by
  simp [BrowserStateHistory.get_screenshot, hp, hne, hex, hrd]

/-- Witness for C2: a concrete file holding the bytes of `"Man"` is returned
as its base64 encoding `"TWFu"`. -/
theorem get_screenshot_reads_base64_witness :
    ({url := "u", title := "t", tabs := [], interacted_element := [],
      screenshot_path := Option.some "shot.png"} : BrowserStateHistory).get_screenshot
      ⟨fun _ => true, fun _ => Option.some [77, 97, 110]⟩ = Option.some "TWFu" := by
  rw [get_screenshot_reads_base64 ⟨fun _ => true, fun _ => Option.some [77, 97, 110]⟩
    _ "shot.png" [77, 97, 110] rfl (by decide) rfl rfl]
  rfl

/-- C10: an entry whose `screenshot_path` is the empty string is falsy under
`if not self.screenshot_path`, so `get_screenshot()` returns absence before
touching the file system: the result is `none` and is independent of the
file system supplied. -/
theorem get_screenshot_empty_path (fs : FileSystem) (h : BrowserStateHistory)
    (hp : h.screenshot_path = Option.some "") :
    h.get_screenshot fs = Option.none ∧
    ∀ fs2 : FileSystem, h.get_screenshot fs = h.get_screenshot fs2 := by
  constructor
  · simp [BrowserStateHistory.get_screenshot, hp]
  · intro fs2; simp [BrowserStateHistory.get_screenshot, hp]

/-- Witness for C10: a concrete entry with an empty path returns absence even
on a file system where every path exists and reads succeed. -/
theorem get_screenshot_empty_path_witness :
    ({url := "u", title := "t", tabs := [], interacted_element := [],
      screenshot_path := Option.some ""} : BrowserStateHistory).get_screenshot
      ⟨fun _ => true, fun _ => Option.some [0]⟩ = Option.none :=
  (get_screenshot_empty_path ⟨fun _ => true, fun _ => Option.some [0]⟩ _ rfl).1

/-- C3: `to_dict()` emits exactly the keys `tabs`, `screenshot_path`,
`interacted_element`, `url`, `title`; `tabs` is the list of tab dumps,
`screenshot_path`, `url` and `title` are copied verbatim, and each
interacted-element slot is the element's own mapping or a null marker;
the spec's concrete example entry serializes to the stated mapping. -/
theorem to_dict_contract (h : BrowserStateHistory) :
    h.to_dict.map Prod.fst =
      ["tabs", "screenshot_path", "interacted_element", "url", "title"] ∧
    h.to_dict.lookup "tabs" =
      Option.some (PyVal.list (h.tabs.map TabInfo.model_dump)) ∧
    h.to_dict.lookup "screenshot_path" =
      Option.some (pyOfOptStr h.screenshot_path) ∧
    h.to_dict.lookup "interacted_element" =
      Option.some (PyVal.list (h.interacted_element.map pyOfElemSlot)) ∧
    h.to_dict.lookup "url" = Option.some (PyVal.str h.url) ∧
    h.to_dict.lookup "title" = Option.some (PyVal.str h.title) ∧
    exampleHist.to_dict =
      [("tabs", PyVal.list [PyVal.dict
          [("page_id", PyVal.int 1), ("url", PyVal.str "https://a.test"),
           ("title", PyVal.str "A"), ("parent_page_id", PyVal.none)]]),
       ("screenshot_path", PyVal.none),
       ("interacted_element", PyVal.list [PyVal.none]),
       ("url", PyVal.str "https://a.test"),
       ("title", PyVal.str "A")] :=
  ⟨rfl, rfl, rfl, rfl, rfl, rfl, rfl⟩

/-- C4: the serialized `interacted_element` list has exactly the length and
slot order of the entry's `interacted_element` field; each in-range slot
maps to the element's mapping or the null marker, and an all-unresolved
field of length `n` serializes to `n` null markers. -/
theorem interacted_element_slots (h : BrowserStateHistory) :
    (h.interacted_element.map pyOfElemSlot).length = h.interacted_element.length ∧
    h.to_dict.lookup "interacted_element" =
      Option.some (PyVal.list (h.interacted_element.map pyOfElemSlot)) ∧
    (∀ i : Nat, i < h.interacted_element.length →
      (h.interacted_element.map pyOfElemSlot).getD i PyVal.none =
        pyOfElemSlot (h.interacted_element.getD i Option.none)) ∧
    (∀ n : Nat, h.interacted_element = List.replicate n Option.none →
      h.interacted_element.map pyOfElemSlot = List.replicate n PyVal.none) := by
  refine ⟨List.length_map _ _, rfl, ?_, ?_⟩
  · intro i hi
    rw [List.getD_eq_getElem _ _ (by simpa using hi),
        List.getD_eq_getElem _ _ hi, List.getElem_map]
  · intro n hn
    rw [hn, List.map_replicate]
    rfl

/-- Witness for C4: on the concrete all-unresolved entry with two slots,
slot 0 serializes to the null marker and the whole list is two null
markers. -/
theorem interacted_element_slots_witness :
    ((allAbsentHist.interacted_element.map pyOfElemSlot).getD 0 PyVal.none =
      pyOfElemSlot (allAbsentHist.interacted_element.getD 0 Option.none)) ∧
    allAbsentHist.interacted_element.map pyOfElemSlot =
      List.replicate 2 PyVal.none :=
  ⟨(interacted_element_slots allAbsentHist).2.2.1 0 (by decide),
   (interacted_element_slots allAbsentHist).2.2.2 2 rfl⟩

/-- C5: `to_dict()` is lossless for every field it emits: two entries with
equal serialized mappings agree on `url`, `title`, the tab list itself,
`screenshot_path`, and the interacted-element slot count and per-slot
emitted content (the element's mapping or the null marker, in order). -/
theorem to_dict_lossless (h1 h2 : BrowserStateHistory)
    (heq : h1.to_dict = h2.to_dict) :
    h1.url = h2.url ∧ h1.title = h2.title ∧ h1.tabs = h2.tabs ∧
    h1.screenshot_path = h2.screenshot_path ∧
    h1.interacted_element.length = h2.interacted_element.length ∧
    h1.interacted_element.map (Option.map DOMHistoryElement.to_dict) =
      h2.interacted_element.map (Option.map DOMHistoryElement.to_dict) := by
  simp only [BrowserStateHistory.to_dict, List.cons.injEq, Prod.mk.injEq,
    PyVal.list.injEq, PyVal.str.injEq, true_and, and_true] at heq
  obtain ⟨htabs, hpath, helems, hurl, htitle⟩ := heq
  have htabs2 : h1.tabs = h2.tabs := by
    have := map_eq_of_map_eq (g := id)
      (fun a b hab => model_dump_inj hab) h1.tabs h2.tabs htabs
    simpa using this
  have helems2 := map_eq_of_map_eq
    (g := Option.map DOMHistoryElement.to_dict)
    (fun a b hab => pyOfElemSlot_eq_imp hab)
    h1.interacted_element h2.interacted_element helems
  have hlen : h1.interacted_element.length = h2.interacted_element.length := by
    have := congrArg List.length helems2
    simpa using this
  exact ⟨hurl, htitle, htabs2, pyOfOptStr_inj hpath, hlen, helems2⟩

/-- Witness for C5: the example entry's serialized mapping determines all
its emitted fields (applied to the entry against itself). -/
theorem to_dict_lossless_witness :
    exampleHist.url = exampleHist.url ∧ exampleHist.title = exampleHist.title ∧
    exampleHist.tabs = exampleHist.tabs ∧
    exampleHist.screenshot_path = exampleHist.screenshot_path ∧
    exampleHist.interacted_element.length = exampleHist.interacted_element.length ∧
    exampleHist.interacted_element.map (Option.map DOMHistoryElement.to_dict) =
      exampleHist.interacted_element.map (Option.map DOMHistoryElement.to_dict) :=
  to_dict_lossless exampleHist exampleHist rfl

end BrowserViews

namespace BrowserViews

theorem badSnapshot_not_resolve : ¬ parentRefsResolve badSnapshot := by
  intro hinv
  obtain ⟨t2, ht2, hpid⟩ := hinv popupTab (by simp [badSnapshot]) 1 rfl
  simp [badSnapshot] at ht2
  rw [ht2] at hpid
  simp [popupTab] at hpid

/-- C6 counterexample: the parent-reference rule is not an invariant of
constructed snapshots — `badSnapshot` is a constructible snapshot whose only
tab has `parent_page_id = 1` while no tab in the list has `page_id = 1`. -/
theorem parent_ref_invariant_counterexample :
    ¬ parentRefsResolve badSnapshot := badSnapshot_not_resolve

/-- C6 amended: the parent-reference rule is a producer obligation, not
enforced at construction: the spec's example snapshot (tabs with page ids 1
and 2, where tab 2's `parent_page_id = 1`) satisfies it, while snapshots
violating it remain constructible. -/
theorem tab_parent_ref_obligation :
    parentRefsResolve goodSnapshot ∧
    ∃ s : BrowserStateSummary, ¬ parentRefsResolve s := by
  constructor
  · intro t ht pid hpid
    simp [goodSnapshot] at ht
    rcases ht with h | h
    · rw [h] at hpid; simp [exampleTab] at hpid
    · rw [h] at hpid
      simp only [popupTab, Option.some.injEq] at hpid
      exact ⟨exampleTab, by simp [goodSnapshot], by simp [exampleTab, ← hpid]⟩
  · exact ⟨badSnapshot, badSnapshot_not_resolve⟩

/-- C7 counterexample: field non-negativity is not an invariant of
constructible `PageInfo` values — `badPageInfo`, all of whose ten fields
are `-1`, is constructible and violates it. -/
theorem pageInfo_nonneg_counterexample : ¬ badPageInfo.allNonneg :=
  fun h => absurd h.1 (by decide)

/-- C7 amended: the fields of `PageInfo` are unconstrained integers — every
integer value `n`, negative included, is admissible for all ten fields
simultaneously, and such a value satisfies the spec's non-negativity
relationship exactly when `0 ≤ n`; non-negativity is only an unenforced
producer obligation. -/
theorem pageInfo_fields_unconstrained (n : Int) :
    ∃ p : PageInfo, (p.allNonneg ↔ 0 ≤ n) ∧
      p.viewport_width = n ∧ p.viewport_height = n ∧ p.page_width = n ∧
      p.page_height = n ∧ p.scroll_x = n ∧ p.scroll_y = n ∧
      p.pixels_above = n ∧ p.pixels_below = n ∧ p.pixels_left = n ∧
      p.pixels_right = n :=
  ⟨⟨n, n, n, n, n, n, n, n, n, n⟩,
   ⟨fun h => h.1, fun h => ⟨h, h, h, h, h, h, h, h, h, h⟩⟩,
   rfl, rfl, rfl, rfl, rfl, rfl, rfl, rfl, rfl, rfl⟩

/-- Witness for C7's amended theorem: at the concrete value `-5`, a
`PageInfo` with all fields `-5` exists and fails the non-negativity
relationship. -/
theorem pageInfo_fields_unconstrained_witness :
    ∃ p : PageInfo, (p.allNonneg ↔ 0 ≤ (-5 : Int)) ∧
      p.viewport_width = -5 ∧ p.viewport_height = -5 ∧ p.page_width = -5 ∧
      p.page_height = -5 ∧ p.scroll_x = -5 ∧ p.scroll_y = -5 ∧
      p.pixels_above = -5 ∧ p.pixels_below = -5 ∧ p.pixels_left = -5 ∧
      p.pixels_right = -5 :=
  pageInfo_fields_unconstrained (-5)

/-- C8: reading any field of a constructed `BrowserStateSummary` — the
inherited `element_tree` and `selector_map` included — yields exactly the
value supplied at construction; the embedding is purely functional and no
operation of this subsystem takes a snapshot as mutable state. -/
theorem snapshot_readback (et : DOMElementNode) (sm : SelectorMap)
    (u t : String) (tb : List TabInfo) (sc : Option String)
    (pg : Option PageInfo) (pa pb : Int) (be : List String) (pdf : Bool)
    (ld : Option String) :
    (BrowserStateSummary.mk et sm u t tb sc pg pa pb be pdf ld).element_tree = et ∧
    (BrowserStateSummary.mk et sm u t tb sc pg pa pb be pdf ld).selector_map = sm ∧
    (BrowserStateSummary.mk et sm u t tb sc pg pa pb be pdf ld).url = u ∧
    (BrowserStateSummary.mk et sm u t tb sc pg pa pb be pdf ld).title = t ∧
    (BrowserStateSummary.mk et sm u t tb sc pg pa pb be pdf ld).tabs = tb ∧
    (BrowserStateSummary.mk et sm u t tb sc pg pa pb be pdf ld).screenshot = sc ∧
    (BrowserStateSummary.mk et sm u t tb sc pg pa pb be pdf ld).page_info = pg ∧
    (BrowserStateSummary.mk et sm u t tb sc pg pa pb be pdf ld).pixels_above = pa ∧
    (BrowserStateSummary.mk et sm u t tb sc pg pa pb be pdf ld).pixels_below = pb ∧
    (BrowserStateSummary.mk et sm u t tb sc pg pa pb be pdf ld).browser_errors = be ∧
    (BrowserStateSummary.mk et sm u t tb sc pg pa pb be pdf ld).is_pdf_viewer = pdf ∧
    (BrowserStateSummary.mk et sm u t tb sc pg pa pb be pdf ld).loading_status = ld :=
  ⟨rfl, rfl, rfl, rfl, rfl, rfl, rfl, rfl, rfl, rfl, rfl, rfl⟩

end BrowserViews

namespace BrowserViews

/-! ## PNG decoding of the placeholder constant

`PLACEHOLDER_4PX_SCREENSHOT` is documented as "a 4x4 white PNG". The bytes
it base64-decodes to are given explicitly as `placeholderBytes` (re-encoding
them with `base64Encode` recovers the constant); the definitions below
decode those bytes as a PNG: chunk structure with CRC-32 verification,
zlib (RFC 1950) with Adler-32 verification over a fixed-Huffman deflate
stream (RFC 1951), and scanline-filter reconstruction (RFC 2083 §6.2). -/

/-- The 77 bytes the placeholder constant base64-decodes to. -/
def placeholderBytes : List Nat :=
  [137, 80, 78, 71, 13, 10, 26, 10, 0, 0, 0, 13, 73,
   72, 68, 82, 0, 0, 0, 4, 0, 0, 0, 4, 8, 2,
   0, 0, 0, 38, 147, 9, 41, 0, 0, 0, 20, 73, 68,
   65, 84, 120, 156, 99, 252, 255, 255, 63, 3, 12, 48, 49,
   32, 1, 220, 28, 0, 150, 110, 3, 5, 242, 37, 190, 249,
   0, 0, 0, 0, 73, 69, 78, 68, 174, 66, 96, 130]

/-- LSB-first bit expansion of a byte list (deflate's bit order). -/
def bitsOfBytes : List Nat → List Nat
  | [] => []
  | b :: rest =>
      [b % 2, b / 2 % 2, b / 4 % 2, b / 8 % 2, b / 16 % 2, b / 32 % 2,
       b / 64 % 2, b / 128 % 2] ++ bitsOfBytes rest

/-- Read `n` bits LSB-first as an integer field; `none` on exhaustion. -/
def readBitsLSB (n : Nat) (bits : List Nat) : Option (Nat × List Nat) :=
  match n with
  | 0 => Option.some (0, bits)
  | n + 1 =>
      match bits with
      | [] => Option.none
      | b :: rest =>
          match readBitsLSB n rest with
          | Option.none => Option.none
          | Option.some (v, rest2) => Option.some (b + 2 * v, rest2)

/-- Accumulate `n` Huffman code bits MSB-first onto `acc`. -/
def readCodeBits (n : Nat) (acc : Nat) (bits : List Nat) :
    Option (Nat × List Nat) :=
  match n with
  | 0 => Option.some (acc, bits)
  | n + 1 =>
      match bits with
      | [] => Option.none
      | b :: rest => readCodeBits n (acc * 2 + b) rest

/-- Decode one literal/length symbol of the fixed Huffman code
(RFC 1951 §3.2.6: 7-bit codes 0–23 are symbols 256–279, 8-bit codes
48–191 are literals 0–143, 8-bit codes 192–199 are symbols 280–287,
9-bit codes 400–511 are literals 144–255). -/
def readFixedLitSym (bits : List Nat) : Option (Nat × List Nat) :=
  match readCodeBits 7 0 bits with
  | Option.none => Option.none
  | Option.some (c7, rest7) =>
      if c7 ≤ 23 then Option.some (256 + c7, rest7)
      else
        match readCodeBits 1 c7 rest7 with
        | Option.none => Option.none
        | Option.some (c8, rest8) =>
            if 48 ≤ c8 ∧ c8 ≤ 191 then Option.some (c8 - 48, rest8)
            else if 192 ≤ c8 ∧ c8 ≤ 199 then Option.some (280 + (c8 - 192), rest8)
            else
              match readCodeBits 1 c8 rest8 with
              | Option.none => Option.none
              | Option.some (c9, rest9) =>
                  if 400 ≤ c9 ∧ c9 ≤ 511 then Option.some (144 + (c9 - 400), rest9)
                  else Option.none

/-- Length base for 0-based length-symbol index `i` (symbol `257 + i`); a
closed form of the RFC 1951 §3.2.5 table: the first eight rows are `i + 3`,
the last row is 258, and row `i` of the middle groups of four doubles every
group. -/
def lengthBaseAt (i : Nat) : Nat :=
  if i < 8 then i + 3
  else if i = 28 then 258
  else 2 ^ ((i - 4) / 4 + 2) + i % 4 * 2 ^ ((i - 4) / 4) + 3

/-- Extra length bits for 0-based length-symbol index `i` (closed form of
the RFC 1951 §3.2.5 table). -/
def lengthExtraAt (i : Nat) : Nat :=
  if i < 8 ∨ i = 28 then 0 else (i - 4) / 4

/-- Distance base for distance code `d` (closed form of the RFC 1951
§3.2.5 table: codes come in doubling pairs after the first two). -/
def distBaseAt (d : Nat) : Nat :=
  if d < 2 then d + 1 else (2 + d % 2) * 2 ^ (d / 2 - 1) + 1

/-- Extra distance bits for distance code `d`. -/
def distExtraAt (d : Nat) : Nat :=
  if d < 2 then 0 else d / 2 - 1

/-- Decode the copy length for length symbol `sym`. -/
def readLength (sym : Nat) (bits : List Nat) : Option (Nat × List Nat) :=
  if sym < 257 ∨ 285 < sym then Option.none
  else
    match readBitsLSB (lengthExtraAt (sym - 257)) bits with
    | Option.none => Option.none
    | Option.some (e, rest) => Option.some (lengthBaseAt (sym - 257) + e, rest)

/-- Decode a copy distance: a 5-bit fixed code (MSB-first) plus extra bits. -/
def readDistance (bits : List Nat) : Option (Nat × List Nat) :=
  match readCodeBits 5 0 bits with
  | Option.none => Option.none
  | Option.some (d, rest) =>
      if 29 < d then Option.none
      else
        match readBitsLSB (distExtraAt d) rest with
        | Option.none => Option.none
        | Option.some (e, rest2) => Option.some (distBaseAt d + e, rest2)

/-- LZ77 back-copy: `out` holds the output so far, most recent byte first;
copy `len` bytes from `dist` back, one at a time. -/
def lzCopy (out : List Nat) (dist : Nat) : Nat → List Nat
  | 0 => out
  | len + 1 => lzCopy (out.getD (dist - 1) 0 :: out) dist len

/-- Decode the body of one fixed-Huffman deflate block; `out` holds output
bytes most recent first; `fuel` bounds the number of symbols. -/
def inflateFixedBody (fuel : Nat) (bits : List Nat) (out : List Nat) :
    Option (List Nat × List Nat) :=
  match fuel with
  | 0 => Option.none
  | fuel + 1 =>
      match readFixedLitSym bits with
      | Option.none => Option.none
      | Option.some (sym, rest) =>
          if sym < 256 then inflateFixedBody fuel rest (sym :: out)
          else if sym = 256 then Option.some (out, rest)
          else
            match readLength sym rest with
            | Option.none => Option.none
            | Option.some (len, rest2) =>
                match readDistance rest2 with
                | Option.none => Option.none
                | Option.some (dist, rest3) =>
                    if dist = 0 then Option.none
                    else inflateFixedBody fuel rest3 (lzCopy out dist len)

/-- Inflate a deflate stream made of fixed-Huffman blocks (BTYPE=01). -/
def inflate (fuel : Nat) (bits : List Nat) (out : List Nat) :
    Option (List Nat) :=
  match fuel with
  | 0 => Option.none
  | fuel + 1 =>
      match readBitsLSB 1 bits with
      | Option.none => Option.none
      | Option.some (bfinal, rest) =>
          match readBitsLSB 2 rest with
          | Option.none => Option.none
          | Option.some (btype, rest2) =>
              if btype = 1 then
                match inflateFixedBody (rest2.length + 1) rest2 out with
                | Option.none => Option.none
                | Option.some (out2, rest3) =>
                    if bfinal = 1 then Option.some out2.reverse
                    else inflate fuel rest3 out2
              else Option.none

/-- Adler-32 checksum (RFC 1950 §8). -/
def adler32 (bytes : List Nat) : Nat :=
  let s := bytes.foldl
    (fun ab x => ((ab.1 + x) % 65521, (ab.2 + ab.1 + x) % 65521)) (1, 0)
  s.2 * 65536 + s.1

/-- Big-endian value of a byte list. -/
def beVal (l : List Nat) : Nat := l.foldl (fun acc b => acc * 256 + b) 0

/-- zlib decompression (RFC 1950): validate the two header bytes, inflate,
and validate the Adler-32 trailer over the decompressed data. -/
def zlibDecompress (data : List Nat) : Option (List Nat) :=
  if data.length < 6 then Option.none
  else if data.getD 0 0 % 16 ≠ 8 then Option.none
  else if (data.getD 0 0 * 256 + data.getD 1 0) % 31 ≠ 0 then Option.none
  else if data.getD 1 0 / 32 % 2 = 1 then Option.none
  else
    let body := (data.drop 2).take (data.length - 6)
    let trailer := data.drop (data.length - 4)
    match inflate (bitsOfBytes body).length (bitsOfBytes body) [] with
    | Option.none => Option.none
    | Option.some out =>
        if adler32 out = beVal trailer then Option.some out else Option.none

/-- One byte of the bitwise CRC-32 (reflected polynomial 0xEDB88320). -/
def crc32Byte (crc : Nat) (b : Nat) : Nat :=
  (List.range 8).foldl
    (fun c _ => if c % 2 = 1 then (c / 2) ^^^ 0xEDB88320 else c / 2)
    (crc ^^^ b)

/-- CRC-32 as used by PNG chunks. -/
def crc32 (bytes : List Nat) : Nat :=
  (bytes.foldl crc32Byte 0xFFFFFFFF) ^^^ 0xFFFFFFFF

/-- One PNG chunk: its four type bytes and its data bytes. -/
structure PngChunk where
  ctype : List Nat
  cdata : List Nat

/-- Split the bytes after the PNG signature into chunks, checking each
chunk's CRC-32 over its type and data bytes. -/
def parseChunks (fuel : Nat) (bytes : List Nat) : Option (List PngChunk) :=
  match fuel with
  | 0 => Option.none
  | fuel + 1 =>
      match bytes with
      | [] => Option.some []
      | _ =>
          if bytes.length < 12 then Option.none
          else
            let len := beVal (bytes.take 4)
            let ctype := (bytes.drop 4).take 4
            let cdata := (bytes.drop 8).take len
            let crcBytes := (bytes.drop (8 + len)).take 4
            if bytes.length < 12 + len then Option.none
            else if crc32 (ctype ++ cdata) ≠ beVal crcBytes then Option.none
            else
              match parseChunks fuel (bytes.drop (12 + len)) with
              | Option.none => Option.none
              | Option.some rest => Option.some (⟨ctype, cdata⟩ :: rest)

/-- The Paeth predictor (RFC 2083 §6.6). -/
def paeth (a b c : Nat) : Nat :=
  let p : Int := (a : Int) + b - c
  let pa := (p - a).natAbs
  let pb := (p - b).natAbs
  let pc := (p - c).natAbs
  if pa ≤ pb ∧ pa ≤ pc then a else if pb ≤ pc then b else c

/-- Reconstruct one filtered scanline (filter type `ft`, 3 bytes per pixel,
`prior` the reconstructed previous row); `acc` holds the reconstructed
bytes so far, most recent first. -/
def reconRow (ft : Nat) (prior : List Nat) : List Nat → List Nat → List Nat
  | [], acc => acc.reverse
  | x :: raw, acc =>
      let i := acc.length
      let left := acc.getD 2 0
      let up := prior.getD i 0
      let ul := if 3 ≤ i then prior.getD (i - 3) 0 else 0
      let v :=
        if ft = 0 then x % 256
        else if ft = 1 then (x + left) % 256
        else if ft = 2 then (x + up) % 256
        else if ft = 3 then (x + (left + up) / 2) % 256
        else (x + paeth left up ul) % 256
      reconRow ft prior raw (v :: acc)

/-- Reconstruct `h` scanlines of `stride` bytes each, every row preceded by
its filter-type byte. -/
def reconRows (stride : Nat) (prior : List Nat) : Nat → List Nat → Option (List Nat)
  | 0, raw => if raw.isEmpty then Option.some [] else Option.none
  | h + 1, raw =>
      match raw with
      | [] => Option.none
      | ft :: rest =>
          if rest.length < stride then Option.none
          else
            let row := reconRow ft prior (rest.take stride) []
            match reconRows stride row h (rest.drop stride) with
            | Option.none => Option.none
            | Option.some more => Option.some (row ++ more)

/-- Decode a byte stream as an 8-bit-RGB, non-interlaced PNG: signature,
CRC-checked chunks (IHDR, then IDATs, then an empty IEND), IHDR validation,
zlib decompression of the IDAT data, and scanline reconstruction; returns
the width, height, and reconstructed pixel bytes. -/
def pngDecode (bytes : List Nat) : Option (Nat × Nat × List Nat) :=
  if bytes.take 8 ≠ [137, 80, 78, 71, 13, 10, 26, 10] then Option.none
  else
    match parseChunks bytes.length (bytes.drop 8) with
    | Option.none => Option.none
    | Option.some [] => Option.none
    | Option.some (ihdr :: rest) =>
        if ihdr.ctype ≠ [73, 72, 68, 82] ∨ ihdr.cdata.length ≠ 13 then Option.none
        else
          let w := beVal (ihdr.cdata.take 4)
          let hgt := beVal ((ihdr.cdata.drop 4).take 4)
          if ihdr.cdata.getD 8 0 ≠ 8 ∨ ihdr.cdata.getD 9 0 ≠ 2 ∨
              ihdr.cdata.getD 10 0 ≠ 0 ∨ ihdr.cdata.getD 11 0 ≠ 0 ∨
              ihdr.cdata.getD 12 0 ≠ 0 then Option.none
          else
            let n := rest.length
            if n = 0 then Option.none
            else
              let idats := rest.take (n - 1)
              let lastC := rest.getD (n - 1) ⟨[], []⟩
              if lastC.ctype ≠ [73, 69, 78, 68] ∨ lastC.cdata ≠ [] then Option.none
              else if idats.any (fun c => c.ctype ≠ [73, 68, 65, 84]) then Option.none
              else
                match zlibDecompress (idats.foldr (fun c acc => c.cdata ++ acc) []) with
                | Option.none => Option.none
                | Option.some raw =>
                    match reconRows (w * 3) (List.replicate (w * 3) 0) hgt raw with
                    | Option.none => Option.none
                    | Option.some px => Option.some (w, hgt, px)

end BrowserViews

namespace BrowserViews

set_option maxRecDepth 10000 in
/-- C9: the placeholder constant is fixed: its bytes re-encode under base64
to exactly the constant, and those bytes decode as a valid PNG (signature,
CRC-checked chunks, Adler-checked zlib stream) of width 4, height 4, whose
48 reconstructed 8-bit RGB samples are all 255 — a 4×4 all-white image. -/
theorem placeholder_is_4x4_white_png :
    base64Encode placeholderBytes = PLACEHOLDER_4PX_SCREENSHOT ∧
    pngDecode placeholderBytes = Option.some (4, 4, List.replicate 48 255) :=
  ⟨by decide, by decide⟩

end BrowserViews
